import Mathlib

/-!
Verification of the chat application's conversation loop, provider adapters,
credential validation and local-storage persistence.

The definitions below are a shallow embedding of the TypeScript sources:

* `src/components/ChatInterface.tsx` — `handleSubmit`, `handleClearChat`
* `src/utils/api.ts` (in `src/app/page.tsx` part of the source pack) —
  `callOpenAIStream` / `callGeminiStream` message shaping and chunk loops,
  `validateApiKey`
* `src/components/ApiKeyManager.tsx` — `handleSave`
* `src/hooks/useLocalStorage.ts` — read-on-first-load and write-through set

External collaborators (the vendor SDKs, `fetch`, `JSON.parse`/`JSON.stringify`,
`chunk.text()`, the browser's local storage engine) are modelled as parameters
or as already-extracted data, exactly at the boundary where the repository's
own code consumes them.  `Date.now()` values are passed in as explicit `Nat`
arguments (`tUser` for the user-message id, `tAsst` for the assistant-message
id on success, `tErr` for the error-message id in the catch block, matching the
three separate `Date.now()` calls in `handleSubmit`).
-/

/-- Message role, from `src/types/index.ts` (`'user' | 'assistant'`). -/
inductive Role where
  | user
  | assistant
deriving DecidableEq, Repr

/-- `Message` interface from `src/types/index.ts`.  `id` is a string
(`Date.now().toString()` at creation sites); `timestamp` (`new Date()`) is
modelled as the clock value. -/
structure Message where
  id : String
  role : Role
  content : String
  timestamp : Nat
deriving DecidableEq, Repr

/-- `ModelProvider` from `src/types/index.ts` (`'openai' | 'gemini'`). -/
inductive ModelProvider where
  | openai
  | gemini
deriving DecidableEq, Repr

/-- A `{role, content}` pair, the shape produced by
`newMessages.map((msg) => ({role: msg.role, content: msg.content}))` in
`ChatInterface.handleSubmit` and consumed by both adapters. -/
structure ChatMsg where
  role : Role
  content : String
deriving DecidableEq, Repr

/-- The `ChatInterface` component state: `input`, `isLoading`, `isStreaming`,
`streamingMessage` (`useState` hooks) and the `messages` prop held by the page. -/
structure ChatState where
  input : String
  isLoading : Bool
  isStreaming : Bool
  streamingMessage : String
  messages : List Message
deriving DecidableEq, Repr

/-- Outcome of consuming an adapter's fragment stream: either it terminates
normally after yielding `frags`, or it raises after yielding some fragments.
A raised JavaScript error that is an `Error` instance carries `some` message;
anything else thrown is `none` (the code then uses a generic text). -/
inductive StreamOutcome where
  | success (frags : List String)
  | failure (frags : List String) (errText : Option String)
deriving DecidableEq, Repr

/-- Result of one `handleSubmit` call: the post-state, plus a record of the
adapter invocation (`none` when the guard rejected the submit and no adapter
was called; otherwise the provider and the message list handed to it). -/
structure SubmitResult where
  state : ChatState
  adapterCall : Option (ModelProvider × List ChatMsg)
deriving DecidableEq, Repr

/-- One submit step of a run: the text typed into the input box, the three
`Date.now()` readings, and the external stream outcome. -/
structure SubmitEvent where
  input : String
  tUser : Nat
  tAsst : Nat
  tErr : Nat
  outcome : StreamOutcome
deriving DecidableEq, Repr

/-- `ApiKeyManager` component state: the `inputValue` and `error` `useState`
hooks, plus `apiKey`, the credential committed so far through the
`onApiKeyChange` callback (the page's stored key). -/
structure KeyManagerState where
  inputValue : String
  error : String
  apiKey : String
deriving DecidableEq, Repr

/-- Gemini SDK role: `'user' | 'model'`. -/
inductive GeminiRole where
  | user
  | model
deriving DecidableEq, Repr

/-- One Gemini content part `{text: ...}`. -/
structure GeminiPart where
  text : String
deriving DecidableEq, Repr

/-- One Gemini history entry `{role, parts}` as built by `callGemini` /
`callGeminiStream`. -/
structure GeminiContent where
  role : GeminiRole
  parts : List GeminiPart
deriving DecidableEq, Repr

/-- The browser's local storage, a string key/value map.  Modelled as an
association list; `window.localStorage` itself is an external collaborator. -/
abbrev Store : Type := List (String × String)

/-- `window.localStorage.getItem(key)`: the stored string, or `none`. -/
def storageGetItem (store : Store) (key : String) : Option String :=
  match store with
  | [] => none
  | (k, v) :: rest => if k = key then some v else storageGetItem rest key

/-- `window.localStorage.setItem(key, value)`: replaces the value stored under
`key`, adding the pair when absent. -/
def storageSetItem (store : Store) (key value : String) : Store :=
  match store with
  | [] => [(key, value)]
  | (k, v) :: rest =>
    if k = key then (key, value) :: rest else (k, v) :: storageSetItem rest key value

/-- The `useState` initializer of `useLocalStorage` (from
`src/hooks/useLocalStorage.ts`, transcribed in
`cursor_building_a_chatbot_application_w.md`): read
`window.localStorage.getItem(key)`; a missing item (or the falsy empty string,
because of the `item ? JSON.parse(item) : initialValue` truthiness test) gives
`initialValue`; otherwise the item is parsed, the `catch` of a parse failure
also giving `initialValue`.  `JSON.parse` is external and passed in as `parse`,
returning `none` where it would throw. -/
def useLocalStorageInit {T : Type} (parse : String → Option T) (store : Store)
    (key : String) (initialValue : T) : T :=
  match storageGetItem store key with
  | none => initialValue
  | some item =>
    if item = "" then initialValue
    else
      match parse item with
      | some v => v
      | none => initialValue

/-- The `setValue` function of `useLocalStorage`: updates the React state to
the new value and writes `JSON.stringify(value)` through to local storage.
`JSON.stringify` is external and passed in as `stringify`.  (The functional
updater form of `setValue` is not used by any caller in the repository and is
not modelled.) -/
def useLocalStorageSetValue {T : Type} (stringify : T → String) (store : Store)
    (key : String) (value : T) : T × Store :=
  (value, storageSetItem store key (stringify value))

/-- Message shaping shared by `callGemini` and `callGeminiStream` (the two
functions contain the identical lines): `messages.slice(0, -1)` mapped to
`{role: msg.role === 'user' ? 'user' : 'model', parts: [{text: msg.content}]}`.
JavaScript `slice(0, -1)` is `take (length - 1)`. -/
def geminiHistory (messages : List ChatMsg) : List GeminiContent :=
  (messages.take (messages.length - 1)).map fun msg =>
    { role := if msg.role = Role.user then GeminiRole.user else GeminiRole.model,
      parts := [{ text := msg.content }] }

/-- The latest turn sent by `callGemini` / `callGeminiStream`:
`messages[messages.length - 1].content`.  JavaScript indexing out of bounds
yields `undefined` (and the subsequent `.content` access has no defined
result), so the access is modelled as an `Option`. -/
def geminiLatestTurn (messages : List ChatMsg) : Option String :=
  (messages[messages.length - 1]?).map ChatMsg.content

/-- The chunk loop of `callGeminiStream`: for each chunk of `result.stream`,
`chunkText := chunk.text()` (external extraction, modelled as the
already-extracted text, with `""` where nothing is extractable); a falsy
(empty) `chunkText` is skipped, otherwise it is yielded.  The returned list is
the sequence of yielded fragments, in order. -/
def geminiProcessChunks : List String → List String
  | [] => []
  | chunkText :: rest =>
    if chunkText = "" then geminiProcessChunks rest
    else chunkText :: geminiProcessChunks rest

/-- The SSE line loop of `callOpenAIStream`: a line not starting with
`"data: "` is ignored; otherwise the payload `line.slice(6)` is checked
against `"[DONE]"` (which returns, ending the stream); otherwise the payload
is `JSON.parse`d and `parsed.choices[0]?.delta?.content` extracted —
both external, modelled by `parseChunk` (`none` where `JSON.parse` throws and
the `catch` skips the line; `some none` for parsed JSON without a content
field); a falsy (absent or empty) content is skipped, otherwise it is yielded.
The returned list is the sequence of yielded fragments, in order. -/
def openAIProcessLines (parseChunk : String → Option (Option String)) :
    List String → List String
  | [] => []
  | line :: rest =>
    if line.startsWith ("data: ") then
      if line.drop 6 = "[DONE]" then []
      else
        match parseChunk (line.drop 6) with
        | none => openAIProcessLines parseChunk rest
        | some none => openAIProcessLines parseChunk rest
        | some (some content) =>
          if content = "" then openAIProcessLines parseChunk rest
          else content :: openAIProcessLines parseChunk rest
    else openAIProcessLines parseChunk rest

/-- The message list placed in the `callOpenAIStream` request body:
`messages: request.messages`, the flat list handed in by `ChatInterface`,
unchanged. -/
def openAIBodyMessages (messages : List ChatMsg) : List ChatMsg :=
  messages

/-- `validateApiKey` from `src/utils/api.ts`.  (`apiKey.length` is the
JavaScript UTF-16 length, modelled as the character count; the two agree on
all keys considered here.  The source's final unreachable `return false` after
the two provider branches is absorbed by the exhaustive match.) -/
def validateApiKey (provider : ModelProvider) (apiKey : String) : Bool :=
  if apiKey = "" || apiKey.trim = "" then false
  else
    match provider with
    | ModelProvider.openai => apiKey.startsWith ("sk-")
    | ModelProvider.gemini => decide (apiKey.length > 10)

/-- `handleSave` from `src/components/ApiKeyManager.tsx`: an input failing
`validateApiKey` sets a provider-specific error message and does not call
`onApiKeyChange`; a passing input clears the error and commits the input as
the credential. -/
def handleSave (modelProvider : ModelProvider) (km : KeyManagerState) : KeyManagerState :=
  if !(validateApiKey modelProvider km.inputValue) then
    { km with
      error :=
        if modelProvider = ModelProvider.openai then
          "Please enter a valid OpenAI API key (starts with sk-)"
        else "Please enter a valid Gemini API key" }
  else
    { km with error := "", apiKey := km.inputValue }

/-- The `map` applied to `newMessages` in both provider branches of
`handleSubmit` (`(msg) => ({role: msg.role, content: msg.content})`). -/
def toChatMsg (msg : Message) : ChatMsg :=
  { role := msg.role, content := msg.content }

/-- `handleSubmit` from `src/components/ChatInterface.tsx`.

The guard `if (!input.trim() || !apiKey || isLoading) return` rejects the
submit, leaving all state unchanged and calling no adapter.  Otherwise a user
message with the trimmed input is appended, the input is cleared, the loading
and streaming flags are raised, and the provider branch builds the
`{role, content}` list, invokes the streaming adapter and folds the yielded
fragments into `fullResponse` (`fullResponse += chunk`).  Normal termination
commits the accumulated text as the assistant message; a raised error is
caught and committed as a synthetic assistant message
`"Error: " + (error.message or the generic text)`.  Either way the `finally`
block lowers both flags and clears the transient `streamingMessage` buffer.
The transient `setStreamingMessage` renders during the loop do not survive
into the post-state.  Stream consumption is external, supplied as `outcome`. -/
def handleSubmit (st : ChatState) (modelProvider : ModelProvider) (apiKey : String)
    (tUser tAsst tErr : Nat) (outcome : StreamOutcome) : SubmitResult :=
  if st.input.trim = "" || apiKey = "" || st.isLoading then
    { state := st, adapterCall := none }
  else
    let userMessage : Message :=
      { id := Nat.repr tUser, role := Role.user, content := st.input.trim, timestamp := tUser }
    let newMessages := st.messages ++ [userMessage]
    let assistantMessageId := Nat.repr (tAsst + 1)
    match modelProvider with
    | ModelProvider.openai =>
      let openAIMessages := newMessages.map toChatMsg
      match outcome with
      | StreamOutcome.success frags =>
        let fullResponse := frags.foldl (fun r s => r ++ s) ""
        let assistantMessage : Message :=
          { id := assistantMessageId, role := Role.assistant, content := fullResponse,
            timestamp := tAsst }
        { state :=
            { input := "", isLoading := false, isStreaming := false, streamingMessage := "",
              messages := newMessages ++ [assistantMessage] },
          adapterCall := some (ModelProvider.openai, openAIMessages) }
      | StreamOutcome.failure _ errText =>
        let errorMessage : Message :=
          { id := Nat.repr (tErr + 1), role := Role.assistant,
            content := "Error: " ++ errText.getD ("Unknown error occurred"), timestamp := tErr }
        { state :=
            { input := "", isLoading := false, isStreaming := false, streamingMessage := "",
              messages := newMessages ++ [errorMessage] },
          adapterCall := some (ModelProvider.openai, openAIMessages) }
    | ModelProvider.gemini =>
      let geminiMessages := newMessages.map toChatMsg
      match outcome with
      | StreamOutcome.success frags =>
        let fullResponse := frags.foldl (fun r s => r ++ s) ""
        let assistantMessage : Message :=
          { id := assistantMessageId, role := Role.assistant, content := fullResponse,
            timestamp := tAsst }
        { state :=
            { input := "", isLoading := false, isStreaming := false, streamingMessage := "",
              messages := newMessages ++ [assistantMessage] },
          adapterCall := some (ModelProvider.gemini, geminiMessages) }
      | StreamOutcome.failure _ errText =>
        let errorMessage : Message :=
          { id := Nat.repr (tErr + 1), role := Role.assistant,
            content := "Error: " ++ errText.getD ("Unknown error occurred"), timestamp := tErr }
        { state :=
            { input := "", isLoading := false, isStreaming := false, streamingMessage := "",
              messages := newMessages ++ [errorMessage] },
          adapterCall := some (ModelProvider.gemini, geminiMessages) }

/-- `handleClearChat` from `src/components/ChatInterface.tsx`:
`onMessagesChange([])`. -/
def handleClearChat (st : ChatState) : ChatState :=
  { st with messages := [] }

/-- A sequence of submit steps: before each submit the user types
`e.input` into the input box, then submits with the event's clock readings
and stream outcome. -/
def runSubmits (modelProvider : ModelProvider) (apiKey : String) :
    ChatState → List SubmitEvent → ChatState
  | st, [] => st
  | st, e :: es =>
    runSubmits modelProvider apiKey
      (handleSubmit { st with input := e.input } modelProvider apiKey
        e.tUser e.tAsst e.tErr e.outcome).state es

/-- Specification-side in-order concatenation of fragments,
`F1 ++ (F2 ++ (... ++ Fn))`, written independently of the code's
left-accumulating `fullResponse += chunk` loop. -/
def specConcat : List String → String
  | [] => ""
  | f :: rest => f ++ specConcat rest

/-- Specification-side Gemini role translation: `user ↦ user`,
`assistant ↦ model`. -/
def toGeminiRole : Role → GeminiRole
  | Role.user => GeminiRole.user
  | Role.assistant => GeminiRole.model

/-- Reference decimal-digit list of a natural number, most significant digit
first, used to reason about `Nat.repr` (the `.toString()` applied to
`Date.now()` at the message-id creation sites). -/
def decDigits (n : Nat) : List Char :=
  if n < 10 then [Nat.digitChar n]
  else decDigits (n / 10) ++ [Nat.digitChar (n % 10)]
termination_by n
decreasing_by exact Nat.div_lt_self (by omega) (by omega)

/-- A concrete stand-in for the external `JSON.stringify` on message lists,
used to instantiate persistence statements at concrete inputs.  It agrees
with JSON on the empty list. -/
def demoStringify : List Message → String
  | [] => "[]"
  | _ :: _ => "[nonempty]"

/-- A concrete stand-in for the external `JSON.parse` on message lists,
inverse to `demoStringify` on the empty list. -/
def demoParse (s : String) : Option (List Message) :=
  if s = "[]" then some [] else none

/-- The assistant message committed at the end of an accepted submit: on
normal termination the accumulated fold of the fragments under the
success-path id, on a raised error the synthetic error message under the
catch-path id. -/
def committedMessage (tAsst tErr : Nat) : StreamOutcome → Message
  | StreamOutcome.success frags =>
    { id := Nat.repr (tAsst + 1), role := Role.assistant,
      content := frags.foldl (fun r s => r ++ s) "", timestamp := tAsst }
  | StreamOutcome.failure _ errText =>
    { id := Nat.repr (tErr + 1), role := Role.assistant,
      content := "Error: " ++ errText.getD ("Unknown error occurred"), timestamp := tErr }

/-! ### Helper lemmas -/

theorem str_append_assoc (a b c : String) : a ++ b ++ c = a ++ (b ++ c) := by
  apply String.ext
  simp [List.append_assoc]

theorem foldl_append_eq_specConcat (l : List String) (acc : String) :
    l.foldl (fun r s => r ++ s) acc = acc ++ specConcat l := by
  induction l generalizing acc with
  | nil => simp [specConcat]
  | cons f rest ih => simp [specConcat, List.foldl_cons, ih, str_append_assoc]

theorem digitChar_fin_inj : ∀ a b : Fin 10, Nat.digitChar a.val = Nat.digitChar b.val → a = b := by
  decide

theorem digitChar_inj_of_lt (a b : Nat) (ha : a < 10) (hb : b < 10)
    (h : Nat.digitChar a = Nat.digitChar b) : a = b := by
  have := digitChar_fin_inj ⟨a, ha⟩ ⟨b, hb⟩ h
  exact congrArg Fin.val this

theorem toDigitsCore_eq_decDigits :
    ∀ (fuel n : Nat) (acc : List Char), n < fuel →
      Nat.toDigitsCore 10 fuel n acc = decDigits n ++ acc := by
  intro fuel
  induction fuel with
  | zero => intro n acc h; omega
  | succ fuel ih =>
    intro n acc h
    simp only [Nat.toDigitsCore]
    by_cases h10 : n / 10 = 0
    · have hn10 : n < 10 := by omega
      have : n % 10 = n := Nat.mod_eq_of_lt hn10
      rw [decDigits]
      simp [h10, hn10, this]
    · have hge : 10 ≤ n := by
        by_contra hlt
        exact h10 (Nat.div_eq_of_lt (by omega))
      have hfuel : n / 10 < fuel := by
        have : n / 10 < n := Nat.div_lt_self (by omega) (by omega)
        omega
      rw [if_neg h10, ih (n / 10) _ hfuel]
      conv_rhs => rw [decDigits]
      rw [if_neg (show ¬ n < 10 by omega), List.append_assoc, List.singleton_append]

theorem natRepr_eq_decDigits (n : Nat) : Nat.repr n = (decDigits n).asString := by
  show (Nat.toDigits 10 n).asString = (decDigits n).asString
  rw [Nat.toDigits, toDigitsCore_eq_decDigits (n + 1) n [] (by omega), List.append_nil]

theorem decDigits_of_lt (n : Nat) (h : n < 10) : decDigits n = [Nat.digitChar n] := by
  rw [decDigits, if_pos h]

theorem decDigits_of_ge (n : Nat) (h : ¬ n < 10) :
    decDigits n = decDigits (n / 10) ++ [Nat.digitChar (n % 10)] := by
  conv_lhs => rw [decDigits]
  rw [if_neg h]

theorem decDigits_ne_nil (n : Nat) : decDigits n ≠ [] := by
  by_cases h : n < 10
  · rw [decDigits_of_lt n h]; simp
  · rw [decDigits_of_ge n h]; simp

theorem decDigits_inj (m n : Nat) (h : decDigits m = decDigits n) : m = n := by
  by_cases hm : m < 10 <;> by_cases hn : n < 10
  · rw [decDigits_of_lt m hm, decDigits_of_lt n hn] at h
    simp only [List.cons.injEq, and_true] at h
    exact digitChar_inj_of_lt m n hm hn h
  · rw [decDigits_of_lt m hm, decDigits_of_ge n hn] at h
    have hlen := congrArg List.length h
    simp only [List.length_append, List.length_cons, List.length_nil] at hlen
    have hz : (decDigits (n / 10)).length = 0 := by omega
    exact absurd (List.length_eq_zero.mp hz) (decDigits_ne_nil (n / 10))
  · rw [decDigits_of_ge m hm, decDigits_of_lt n hn] at h
    have hlen := congrArg List.length h
    simp only [List.length_append, List.length_cons, List.length_nil] at hlen
    have hz : (decDigits (m / 10)).length = 0 := by omega
    exact absurd (List.length_eq_zero.mp hz) (decDigits_ne_nil (m / 10))
  · rw [decDigits_of_ge m hm, decDigits_of_ge n hn] at h
    have hsplit := List.append_inj' h (by simp)
    have h1 : m / 10 = n / 10 := decDigits_inj (m / 10) (n / 10) hsplit.1
    have h2 : m % 10 = n % 10 := by
      have hd := hsplit.2
      simp only [List.cons.injEq, and_true] at hd
      exact digitChar_inj_of_lt _ _ (Nat.mod_lt _ (by omega)) (Nat.mod_lt _ (by omega)) hd
    omega
termination_by m
decreasing_by exact Nat.div_lt_self (by omega) (by omega)

theorem natRepr_inj (m n : Nat) (h : Nat.repr m = Nat.repr n) : m = n := by
  rw [natRepr_eq_decDigits, natRepr_eq_decDigits] at h
  exact decDigits_inj m n (congrArg String.data h)

theorem handleSubmit_rejected (st : ChatState) (provider : ModelProvider) (apiKey : String)
    (tU tA tE : Nat) (outcome : StreamOutcome)
    (h : st.input.trim = "" ∨ apiKey = "" ∨ st.isLoading = true) :
    handleSubmit st provider apiKey tU tA tE outcome = { state := st, adapterCall := none } := by
  simp only [handleSubmit]
  rw [if_pos (by rcases h with h | h | h <;> simp [h])]

theorem handleSubmit_accepted (st : ChatState) (provider : ModelProvider) (apiKey : String)
    (tU tA tE : Nat) (outcome : StreamOutcome)
    (h1 : st.input.trim ≠ "") (h2 : apiKey ≠ "") (h3 : st.isLoading = false) :
    handleSubmit st provider apiKey tU tA tE outcome =
      { state :=
          { input := "", isLoading := false, isStreaming := false, streamingMessage := "",
            messages := st.messages ++
              [{ id := Nat.repr tU, role := Role.user, content := st.input.trim,
                 timestamp := tU },
               committedMessage tA tE outcome] },
        adapterCall := some (provider,
          (st.messages ++
            [({ id := Nat.repr tU, role := Role.user, content := st.input.trim,
                timestamp := tU } : Message)]).map toChatMsg) } := by
  simp only [handleSubmit]
  rw [if_neg (by simp [h1, h2, h3])]
  cases provider <;> cases outcome <;> simp [committedMessage]

theorem trim_eval_hello : (" hello " : String).trim = "hello" := by
  simp +decide [String.trim, Substring.trim, String.toSubstring, Substring.takeWhileAux,
    Substring.takeRightWhileAux, String.extract, String.endPos, String.utf8ByteSize,
    String.get, String.next, String.prev]

theorem trim_eval_empty : ("" : String).trim = "" := by
  simp +decide [String.trim, Substring.trim, String.toSubstring, Substring.takeWhileAux,
    Substring.takeRightWhileAux, String.extract, String.endPos, String.utf8ByteSize,
    String.get, String.next, String.prev]

theorem trim_eval_spaces11 : ("           " : String).trim = "" := by
  simp +decide [String.trim, Substring.trim, String.toSubstring, Substring.takeWhileAux,
    Substring.takeRightWhileAux, String.extract, String.endPos, String.utf8ByteSize,
    String.get, String.next, String.prev]

theorem trim_eval_sk : ("sk-abc" : String).trim = "sk-abc" := by
  simp +decide [String.trim, Substring.trim, String.toSubstring, Substring.takeWhileAux,
    Substring.takeRightWhileAux, String.extract, String.endPos, String.utf8ByteSize,
    String.get, String.next, String.prev]

theorem startsWith_eval_sk : (("sk-abc" : String).startsWith ("sk-")) = true := by
  simp +decide [String.startsWith, Substring.take, String.toSubstring, Substring.hasBeq,
    Substring.beq, String.substrEq, String.substrEq.loop, Substring.nextn, Substring.next,
    String.endPos, String.utf8ByteSize, String.get, String.next, Substring.bsize, String.length]

theorem startsWith_eval_data : (("data: x" : String).startsWith ("data: ")) = true := by
  simp +decide [String.startsWith, Substring.take, String.toSubstring, Substring.hasBeq,
    Substring.beq, String.substrEq, String.substrEq.loop, Substring.nextn, Substring.next,
    String.endPos, String.utf8ByteSize, String.get, String.next, Substring.bsize, String.length]

theorem drop_eval_data : (("data: x" : String).drop 6) = "x" := by
  simp +decide [String.drop, Substring.drop, String.toSubstring, Substring.nextn,
    Substring.next, String.next, String.get, String.endPos, String.utf8ByteSize,
    String.extract, Substring.toString]

/-! ### Claim theorems -/

/-- C1: for every terminating fragment sequence yielded by the active adapter
during an accepted submit, the assistant message committed to the conversation
at the end of the stream has text equal to the in-order concatenation of the
fragments — for both the OpenAI and the Gemini branch of the loop (the
provider is universally quantified). -/
theorem submit_success_commits_concatenation (st : ChatState) (provider : ModelProvider)
    (apiKey : String) (tU tA tE : Nat) (frags : List String)
    (h1 : st.input.trim ≠ "") (h2 : apiKey ≠ "") (h3 : st.isLoading = false) :
    (handleSubmit st provider apiKey tU tA tE (StreamOutcome.success frags)).state.messages
      = st.messages ++
        [{ id := Nat.repr tU, role := Role.user, content := st.input.trim, timestamp := tU },
         { id := Nat.repr (tA + 1), role := Role.assistant, content := specConcat frags,
           timestamp := tA }] := by
  rw [handleSubmit_accepted st provider apiKey tU tA tE _ h1 h2 h3]
  simp [committedMessage, foldl_append_eq_specConcat]

/-- Witness for C1 at a concrete input: submitting " hello " with fragments
["Hi", " there", "!"] commits the user message "hello" followed by the
assistant message "Hi there!". -/
theorem submit_success_commits_concatenation_witness :
    (" hello " : String).trim ≠ "" ∧ ("k" : String) ≠ "" ∧
    (handleSubmit
        { input := " hello ", isLoading := false, isStreaming := false,
          streamingMessage := "", messages := [] }
        ModelProvider.openai ("k") 0 1 1
        (StreamOutcome.success [("Hi"), (" there"), ("!")])).state.messages
      = [{ id := "0", role := Role.user, content := "hello", timestamp := 0 },
         { id := "2", role := Role.assistant, content := "Hi there!", timestamp := 1 }] := by
  refine ⟨by simp [trim_eval_hello], by simp, ?_⟩
  rw [submit_success_commits_concatenation _ ModelProvider.openai ("k") 0 1 1 _
    (by simp [trim_eval_hello]) (by simp) rfl]
  simp [trim_eval_hello, specConcat, show Nat.repr 0 = "0" from rfl,
    show Nat.repr 2 = "2" from rfl,
    show ("Hi" : String) ++ (" there" ++ ("!" ++ "")) = "Hi there!" from rfl]

/-- C2: if the adapter's fragment stream raises during an accepted submit,
exactly one synthetic assistant message carrying the error description is
appended after the already-appended user message, no other message changes,
and the loop returns to idle: both flags false and the transient buffer
cleared. -/
theorem submit_failure_commits_error (st : ChatState) (provider : ModelProvider)
    (apiKey : String) (tU tA tE : Nat) (frags : List String) (errText : Option String)
    (h1 : st.input.trim ≠ "") (h2 : apiKey ≠ "") (h3 : st.isLoading = false) :
    (handleSubmit st provider apiKey tU tA tE (StreamOutcome.failure frags errText)).state
      = { input := "", isLoading := false, isStreaming := false, streamingMessage := "",
          messages := st.messages ++
            [{ id := Nat.repr tU, role := Role.user, content := st.input.trim,
               timestamp := tU },
             { id := Nat.repr (tE + 1), role := Role.assistant,
               content := "Error: " ++ errText.getD ("Unknown error occurred"),
               timestamp := tE }] } := by
  rw [handleSubmit_accepted st provider apiKey tU tA tE _ h1 h2 h3]
  simp [committedMessage]

/-- Witness for C2 at a concrete input: a stream failing with message
"Network error" after yielding nothing commits exactly the user message and
the synthetic assistant message "Error: Network error", with flags lowered and
buffer cleared. -/
theorem submit_failure_commits_error_witness :
    (" hello " : String).trim ≠ "" ∧ ("k" : String) ≠ "" ∧
    (handleSubmit
        { input := " hello ", isLoading := false, isStreaming := false,
          streamingMessage := "", messages := [] }
        ModelProvider.gemini ("k") 0 1 2
        (StreamOutcome.failure [] (some ("Network error")))).state
      = { input := "", isLoading := false, isStreaming := false, streamingMessage := "",
          messages :=
            [{ id := "0", role := Role.user, content := "hello", timestamp := 0 },
             { id := "3", role := Role.assistant, content := "Error: Network error",
               timestamp := 2 }] } := by
  refine ⟨by simp [trim_eval_hello], by simp, ?_⟩
  rw [submit_failure_commits_error _ ModelProvider.gemini ("k") 0 1 2 [] _
    (by simp [trim_eval_hello]) (by simp) rfl]
  simp [trim_eval_hello, show Nat.repr 0 = "0" from rfl, show Nat.repr 3 = "3" from rfl,
    show ("Error: " : String) ++ ("Network error") = "Error: Network error" from rfl]

/-- C3: a submit with blank (empty or whitespace-only) input, or an empty
credential for the active provider, or while a request is in flight
(`isLoading`), leaves the component state — including the conversation —
unchanged and invokes no provider adapter. -/
theorem submit_rejected_no_effect (st : ChatState) (provider : ModelProvider)
    (apiKey : String) (tU tA tE : Nat) (outcome : StreamOutcome)
    (h : st.input.trim = "" ∨ apiKey = "" ∨ st.isLoading = true) :
    handleSubmit st provider apiKey tU tA tE outcome = { state := st, adapterCall := none } :=
  handleSubmit_rejected st provider apiKey tU tA tE outcome h

/-- Witness for C3 at a concrete input: submitting with an empty credential
changes nothing and records no adapter call. -/
theorem submit_rejected_no_effect_witness :
    (("" : String) = "" ∨ False) ∧
    handleSubmit
        { input := "hi", isLoading := false, isStreaming := false,
          streamingMessage := "", messages := [] }
        ModelProvider.openai ("") 0 0 0 (StreamOutcome.success [("x")])
      = { state :=
            { input := "hi", isLoading := false, isStreaming := false,
              streamingMessage := "", messages := [] },
          adapterCall := none } :=
  ⟨Or.inl rfl,
    submit_rejected_no_effect
      { input := "hi", isLoading := false, isStreaming := false,
        streamingMessage := "", messages := [] }
      ModelProvider.openai ("") 0 0 0 (StreamOutcome.success [("x")])
      (Or.inr (Or.inl rfl))⟩

/-- C9: every accepted submit appends a user message whose content is the
trimmed input — leading and trailing whitespace removed — not the raw input
string.  The appended user message sits at index `st.messages.length`, the
first position after the previous conversation. -/
theorem submit_appends_trimmed_input (st : ChatState) (provider : ModelProvider)
    (apiKey : String) (tU tA tE : Nat) (outcome : StreamOutcome)
    (h1 : st.input.trim ≠ "") (h2 : apiKey ≠ "") (h3 : st.isLoading = false) :
    ((handleSubmit st provider apiKey tU tA tE outcome).state.messages)[st.messages.length]?
      = some { id := Nat.repr tU, role := Role.user, content := st.input.trim,
               timestamp := tU } := by
  rw [handleSubmit_accepted st provider apiKey tU tA tE outcome h1 h2 h3,
    List.getElem?_append_right (Nat.le_refl st.messages.length)]
  simp

/-- Witness for C9 at a concrete input: submitting " hello " appends a user
message with content "hello". -/
theorem submit_appends_trimmed_input_witness :
    (" hello " : String).trim ≠ "" ∧ ("k" : String) ≠ "" ∧
    ((handleSubmit
        { input := " hello ", isLoading := false, isStreaming := false,
          streamingMessage := "", messages := [] }
        ModelProvider.openai ("k") 0 1 1 (StreamOutcome.success [("x")])).state.messages)[0]?
      = some { id := "0", role := Role.user, content := "hello", timestamp := 0 } := by
  refine ⟨by simp [trim_eval_hello], by simp, ?_⟩
  have h := submit_appends_trimmed_input
    { input := " hello ", isLoading := false, isStreaming := false,
      streamingMessage := "", messages := [] }
    ModelProvider.openai ("k") 0 1 1 (StreamOutcome.success [("x")])
    (by simp [trim_eval_hello]) (by simp) rfl
  simpa [trim_eval_hello, show Nat.repr 0 = "0" from rfl] using h

/-- C4: in both streaming adapters a received chunk whose extracted text is
empty or absent, or (for the OpenAI adapter) a data line whose payload is not
parseable JSON, is skipped: no fragment is yielded for it, no error is raised
(both loops are total functions into the fragment list), the stream does not
end, and the remaining input is still processed in order. -/
theorem malformed_chunk_skipped (parseChunk : String → Option (Option String))
    (line : String) (rest : List String)
    (hdata : line.startsWith ("data: ") = true)
    (hnotdone : line.drop 6 ≠ "[DONE]")
    (hskip : parseChunk (line.drop 6) = none ∨ parseChunk (line.drop 6) = some none ∨
      parseChunk (line.drop 6) = some (some "")) :
    openAIProcessLines parseChunk (line :: rest) = openAIProcessLines parseChunk rest ∧
    geminiProcessChunks ("" :: rest) = geminiProcessChunks rest := by
  constructor
  · simp only [openAIProcessLines]
    rw [if_pos hdata, if_neg hnotdone]
    rcases hskip with h | h | h <;> simp [h]
  · simp [geminiProcessChunks]

/-- Witness for C4 at a concrete input: the line "data: x" with a parser that
rejects every payload is skipped by the OpenAI loop, and an empty extracted
chunk text is skipped by the Gemini loop, both continuing with the rest. -/
theorem malformed_chunk_skipped_witness :
    (("data: x" : String).startsWith ("data: ") = true) ∧
    (("data: x" : String).drop 6 ≠ "[DONE]") ∧
    (openAIProcessLines (fun _ => none) [("data: x"), ("z")]
        = openAIProcessLines (fun _ => none) [("z")] ∧
      geminiProcessChunks [(""), ("z")] = geminiProcessChunks [("z")]) := by
  refine ⟨startsWith_eval_data, by rw [drop_eval_data]; decide, ?_⟩
  exact malformed_chunk_skipped (fun _ => none) ("data: x") [("z")]
    startsWith_eval_data (by rw [drop_eval_data]; decide) (Or.inl rfl)

/-- C5 counterexample: the claim "for provider 'gemini' validateApiKey
returns true iff the key's length exceeds 10" fails at the key consisting of
eleven spaces: its length exceeds 10, yet validateApiKey returns false
(the whitespace-only check fires first). -/
theorem validateApiKey_gemini_length_counterexample :
    ("           " : String).length > 10 ∧
    validateApiKey ModelProvider.gemini ("           ") = false := by
  refine ⟨by decide, ?_⟩
  simp only [validateApiKey]
  rw [if_pos (by simp [trim_eval_spaces11])]

/-- C5 (amended): validateApiKey returns false for every empty or
whitespace-only key; for a key that is not whitespace-only it returns, for
'openai', true iff the key starts with the literal prefix "sk-" and, for
'gemini', true iff the key's length exceeds 10; and the save action commits
the key via onApiKeyChange iff validateApiKey returns true, otherwise it
surfaces a non-empty error message and leaves the stored credential
unchanged. -/
theorem validateApiKey_spec (provider : ModelProvider) (key : String) :
    (key.trim = "" → validateApiKey provider key = false) ∧
    (key.trim ≠ "" → validateApiKey ModelProvider.openai key = key.startsWith ("sk-")) ∧
    (key.trim ≠ "" → (validateApiKey ModelProvider.gemini key = true ↔ 10 < key.length)) ∧
    (∀ km : KeyManagerState, validateApiKey provider km.inputValue = true →
      handleSave provider km = { km with error := "", apiKey := km.inputValue }) ∧
    (∀ km : KeyManagerState, validateApiKey provider km.inputValue = false →
      (handleSave provider km).apiKey = km.apiKey ∧ (handleSave provider km).error ≠ "") := by
  refine ⟨?_, ?_, ?_, ?_, ?_⟩
  · intro h
    simp only [validateApiKey]
    rw [if_pos (by simp [h])]
  · intro h
    have hk : key ≠ "" := fun he => h (he ▸ trim_eval_empty)
    simp only [validateApiKey]
    rw [if_neg (by simp [h, hk])]
  · intro h
    have hk : key ≠ "" := fun he => h (he ▸ trim_eval_empty)
    simp only [validateApiKey]
    rw [if_neg (by simp [h, hk])]
    simp
  · intro km h
    simp only [handleSave]
    rw [h]
    simp
  · intro km h
    simp only [handleSave]
    rw [h]
    refine ⟨rfl, ?_⟩
    cases provider <;> simp
  
/-- Witness for C5 (amended) at a concrete input: "sk-abc" is not
whitespace-only, and for 'openai' validateApiKey agrees with the "sk-"
prefix test there. -/
theorem validateApiKey_spec_witness :
    ("sk-abc" : String).trim ≠ "" ∧
    validateApiKey ModelProvider.openai ("sk-abc")
      = ("sk-abc" : String).startsWith ("sk-") :=
  ⟨by simp [trim_eval_sk],
    (validateApiKey_spec ModelProvider.openai ("sk-abc")).2.1 (by simp [trim_eval_sk])⟩

/-- C7: the two adapters differ on the same message list only in request
shape: the OpenAI request body carries the full list flat and unchanged,
while for a non-empty list the Gemini request sends all but the last message
as history with role user mapped to user and assistant mapped to model,
contents preserved, and sends the last message's content as the latest turn. -/
theorem provider_request_shapes (msgs : List ChatMsg) (h : msgs ≠ []) :
    openAIBodyMessages msgs = msgs ∧
    geminiHistory msgs
      = msgs.dropLast.map (fun m =>
          { role := toGeminiRole m.role, parts := [{ text := m.content }] }) ∧
    geminiLatestTurn msgs = some ((msgs.getLast h).content) := by
  refine ⟨rfl, ?_, ?_⟩
  · rw [geminiHistory, List.dropLast_eq_take]
    apply List.map_congr_left
    intro m _
    cases hm : m.role <;> simp [toGeminiRole, hm]
  · rw [geminiLatestTurn, ← List.getLast?_eq_getElem?, List.getLast?_eq_getLast msgs h]
    rfl

/-- Witness for C7 at a concrete input: for the three-message list
[user "a", assistant "b", user "c"], the Gemini history is
[user "a", model "b"] and the latest turn is "c". -/
theorem provider_request_shapes_witness :
    ([⟨Role.user, ("a")⟩, ⟨Role.assistant, ("b")⟩, ⟨Role.user, ("c")⟩] : List ChatMsg) ≠ [] ∧
    geminiHistory [⟨Role.user, ("a")⟩, ⟨Role.assistant, ("b")⟩, ⟨Role.user, ("c")⟩]
      = [{ role := GeminiRole.user, parts := [{ text := "a" }] },
         { role := GeminiRole.model, parts := [{ text := "b" }] }] ∧
    geminiLatestTurn [⟨Role.user, ("a")⟩, ⟨Role.assistant, ("b")⟩, ⟨Role.user, ("c")⟩]
      = some ("c") := by
  refine ⟨by simp, ?_, ?_⟩
  · have h := (provider_request_shapes
      [⟨Role.user, ("a")⟩, ⟨Role.assistant, ("b")⟩, ⟨Role.user, ("c")⟩] (by simp)).2.1
    simpa [toGeminiRole] using h
  · have h := (provider_request_shapes
      [⟨Role.user, ("a")⟩, ⟨Role.assistant, ("b")⟩, ⟨Role.user, ("c")⟩] (by simp)).2.2
    simpa using h

/-- C10: the Gemini adapters' access to the last element of their message
list is in bounds exactly when the list is non-empty: for a non-empty list
the latest-turn lookup yields a value, for the empty list it has no result;
and the conversation loop always calls the Gemini adapter with a non-empty
list, because the user message is appended first. -/
theorem gemini_requires_nonempty (msgs : List ChatMsg) (h : msgs ≠ []) :
    (geminiLatestTurn msgs).isSome = true ∧
    geminiLatestTurn ([] : List ChatMsg) = none ∧
    (∀ (st : ChatState) (apiKey : String) (tU tA tE : Nat) (outcome : StreamOutcome)
        (args : List ChatMsg),
      (handleSubmit st ModelProvider.gemini apiKey tU tA tE outcome).adapterCall
          = some (ModelProvider.gemini, args) → args ≠ []) := by
  refine ⟨?_, rfl, ?_⟩
  · rw [geminiLatestTurn, ← List.getLast?_eq_getElem?, List.getLast?_eq_getLast msgs h]
    rfl
  · intro st apiKey tU tA tE outcome args hcall
    by_cases h1 : st.input.trim = ""
    · rw [handleSubmit_rejected st _ _ _ _ _ _ (Or.inl h1)] at hcall
      simp at hcall
    · by_cases h2 : apiKey = ""
      · rw [handleSubmit_rejected st _ _ _ _ _ _ (Or.inr (Or.inl h2))] at hcall
        simp at hcall
      · by_cases h3 : st.isLoading = true
        · rw [handleSubmit_rejected st _ _ _ _ _ _ (Or.inr (Or.inr h3))] at hcall
          simp at hcall
        · rw [handleSubmit_accepted st _ _ _ _ _ _ h1 h2 (by simpa using h3)] at hcall
          simp only [Option.some.injEq, Prod.mk.injEq, true_and] at hcall
          rw [← hcall]
          simp

/-- Witness for C10 at a concrete input: the one-element list [user "hi"] is
non-empty and its latest-turn lookup yields a value. -/
theorem gemini_requires_nonempty_witness :
    ([⟨Role.user, ("hi")⟩] : List ChatMsg) ≠ [] ∧
    (geminiLatestTurn [⟨Role.user, ("hi")⟩]).isSome = true :=
  ⟨by simp, (gemini_requires_nonempty [⟨Role.user, ("hi")⟩] (by simp)).1⟩

theorem storageGetItem_setItem_self (store : Store) (key value : String) :
    storageGetItem (storageSetItem store key value) key = some value := by
  induction store with
  | nil => simp [storageSetItem, storageGetItem]
  | cons p rest ih =>
    obtain ⟨k, v⟩ := p
    by_cases hk : k = key
    · simp [storageSetItem, hk, storageGetItem]
    · simp [storageSetItem, hk, storageGetItem, ih]

/-- C6: the clear-chat action resets the conversation to the empty sequence;
writing that value through `useLocalStorage`'s setter stores its serialization
under the conversation's key "chatbot-messages", and a subsequent first-load
read of that key returns the empty sequence; a first-load read falls back to
the provided default when no stored value exists.  The external JSON codec is
assumed to round-trip the empty list and to serialize it to a non-empty
string, as `JSON.stringify`/`JSON.parse` do. -/
theorem clear_chat_persisted (stringify : List Message → String)
    (parse : String → Option (List Message))
    (hrt : parse (stringify []) = some [])
    (hne : stringify [] ≠ "")
    (store : Store) (st : ChatState) (dflt : List Message) :
    (handleClearChat st).messages = [] ∧
    (useLocalStorageSetValue stringify store ("chatbot-messages")
        (handleClearChat st).messages).1 = [] ∧
    useLocalStorageInit parse
        (useLocalStorageSetValue stringify store ("chatbot-messages")
          (handleClearChat st).messages).2
        ("chatbot-messages") dflt = [] ∧
    (∀ (key : String) (d0 : List Message), storageGetItem store key = none →
      useLocalStorageInit parse store key d0 = d0) := by
  refine ⟨rfl, rfl, ?_, ?_⟩
  · simp only [useLocalStorageSetValue, handleClearChat, useLocalStorageInit,
      storageGetItem_setItem_self]
    rw [if_neg hne, hrt]
  · intro key d0 hnone
    simp [useLocalStorageInit, hnone]

/-- Witness for C6 at a concrete input: with the demo codec, an empty store
and a one-message conversation, clearing yields the empty conversation, the
read-back of the written store yields the empty conversation, and a read of
the untouched empty store yields the default. -/
theorem clear_chat_persisted_witness :
    demoParse (demoStringify []) = some [] ∧
    demoStringify [] ≠ "" ∧
    (handleClearChat
        { input := "", isLoading := false, isStreaming := false, streamingMessage := "",
          messages := [{ id := "1", role := Role.user, content := "hi", timestamp := 1 }] }).messages
      = [] ∧
    useLocalStorageInit demoParse
        (useLocalStorageSetValue demoStringify [] ("chatbot-messages")
          (handleClearChat
            { input := "", isLoading := false, isStreaming := false, streamingMessage := "",
              messages :=
                [{ id := "1", role := Role.user, content := "hi", timestamp := 1 }] }).messages).2
        ("chatbot-messages")
        [{ id := "9", role := Role.assistant, content := "d", timestamp := 9 }]
      = [] := by
  have h := clear_chat_persisted demoStringify demoParse (by simp [demoStringify, demoParse])
    (by simp [demoStringify]) []
    { input := "", isLoading := false, isStreaming := false, streamingMessage := "",
      messages := [{ id := "1", role := Role.user, content := "hi", timestamp := 1 }] }
    [{ id := "9", role := Role.assistant, content := "d", timestamp := 9 }]
  exact ⟨by simp [demoStringify, demoParse], by simp [demoStringify], h.1, h.2.2.1⟩

theorem committedMessage_id (tA tE : Nat) (outcome : StreamOutcome) (h : tA ≤ tE) :
    ∃ n, (committedMessage tA tE outcome).id = Nat.repr n ∧ tA + 1 ≤ n ∧ n ≤ tE + 1 := by
  cases outcome with
  | success frags => exact ⟨tA + 1, rfl, Nat.le_refl _, by omega⟩
  | failure frags errText => exact ⟨tE + 1, rfl, by omega, Nat.le_refl _⟩

theorem runSubmits_ids_nodup (provider : ModelProvider) (apiKey : String) :
    ∀ (events : List SubmitEvent) (st : ChatState) (t : Nat),
      (∀ m ∈ st.messages, ∃ n, m.id = Nat.repr n ∧ n < t) →
      ((st.messages.map Message.id).Nodup) →
      (∀ e ∈ events, e.tUser ≤ e.tAsst ∧ e.tAsst ≤ e.tErr) →
      List.Chain' (fun a b => a.tErr + 1 < b.tUser) events →
      (∀ e ∈ events.head?, t ≤ e.tUser) →
      (((runSubmits provider apiKey st events).messages.map Message.id)).Nodup := by
  intro events
  induction events with
  | nil =>
    intro st t _ hnodup _ _ _
    simpa [runSubmits] using hnodup
  | cons e es ih =>
    intro st t hbound hnodup hchron hchain hhead
    obtain ⟨hse, hch⟩ := List.chain'_cons'.mp hchain
    obtain ⟨heA, heB⟩ := hchron e (by simp)
    have hte : t ≤ e.tUser := hhead e (by simp)
    simp only [runSubmits]
    by_cases hg : ({ st with input := e.input } : ChatState).input.trim = "" ∨ apiKey = "" ∨
        ({ st with input := e.input } : ChatState).isLoading = true
    · rw [handleSubmit_rejected _ provider apiKey e.tUser e.tAsst e.tErr e.outcome hg]
      apply ih _ (e.tErr + 2)
      · intro m hm
        obtain ⟨n, hid, hlt⟩ := hbound m hm
        exact ⟨n, hid, by omega⟩
      · exact hnodup
      · intro e' he'
        exact hchron e' (by simp [he'])
      · exact hch
      · intro e' he'
        have := hse e' he'
        omega
    · push_neg at hg
      obtain ⟨h1, h2, h3⟩ := hg
      rw [handleSubmit_accepted _ provider apiKey e.tUser e.tAsst e.tErr e.outcome h1 h2
        (by simpa using h3)]
      obtain ⟨nc, hnc, hnc1, hnc2⟩ := committedMessage_id e.tAsst e.tErr e.outcome (by omega)
      apply ih _ (e.tErr + 2)
      · intro m hm
        simp only [List.mem_append, List.mem_cons, List.mem_singleton,
          List.not_mem_nil, or_false] at hm
        rcases hm with hm | hm | hm
        · obtain ⟨n, hid, hlt⟩ := hbound m hm
          exact ⟨n, hid, by omega⟩
        · exact ⟨e.tUser, by rw [hm], by omega⟩
        · exact ⟨nc, by rw [hm]; exact hnc, by omega⟩
      · rw [List.map_append, List.nodup_append]
        refine ⟨hnodup, ?_, ?_⟩
        · simp only [List.map_cons, List.map_nil]
          refine List.nodup_cons.mpr ⟨?_, List.nodup_singleton _⟩
          simp only [List.mem_singleton]
          intro hcontra
          rw [hnc] at hcontra
          have := natRepr_inj _ _ hcontra
          omega
        · intro a ha hb
          simp only [List.mem_map] at ha
          obtain ⟨m, hm, rfl⟩ := ha
          obtain ⟨n, hid, hlt⟩ := hbound m hm
          simp only [List.map_cons, List.map_nil, List.mem_cons, List.mem_singleton,
            List.not_mem_nil, or_false] at hb
          rcases hb with hb | hb
          · rw [hid] at hb
            have := natRepr_inj _ _ hb
            omega
          · rw [hid, hnc] at hb
            have := natRepr_inj _ _ hb
            omega
      · intro e' he'
        exact hchron e' (by simp [he'])
      · exact hch
      · intro e' he'
        have := hse e' he'
        omega

/-- C8 counterexample: message ids are not unique for every sequence of
submit steps.  Two submits whose `Date.now()` readings are 5 and 6 produce
the id "6" twice: the error message of the first submit gets id `5 + 1` and
the user message of the second submit gets id `6`. -/
theorem message_id_collision_counterexample :
    ¬ ((runSubmits ModelProvider.openai ("sk-test")
          { input := "", isLoading := false, isStreaming := false,
            streamingMessage := "", messages := [] }
          [{ input := " hello ", tUser := 5, tAsst := 5, tErr := 5,
             outcome := StreamOutcome.failure [] (some ("boom")) },
           { input := " hello ", tUser := 6, tAsst := 6, tErr := 6,
             outcome := StreamOutcome.success [("ok")] }]).messages.map
        Message.id).Nodup := by
  have hm : ((runSubmits ModelProvider.openai ("sk-test")
          { input := "", isLoading := false, isStreaming := false,
            streamingMessage := "", messages := [] }
          [{ input := " hello ", tUser := 5, tAsst := 5, tErr := 5,
             outcome := StreamOutcome.failure [] (some ("boom")) },
           { input := " hello ", tUser := 6, tAsst := 6, tErr := 6,
             outcome := StreamOutcome.success [("ok")] }]).messages.map Message.id)
      = [("5" : String), ("6"), ("6"), ("7")] := by
    simp only [runSubmits]
    rw [handleSubmit_accepted _ ModelProvider.openai ("sk-test") 5 5 5 _
      (by simp [trim_eval_hello]) (by decide) rfl]
    rw [handleSubmit_accepted _ ModelProvider.openai ("sk-test") 6 6 6 _
      (by simp [trim_eval_hello]) (by decide) rfl]
    simp [committedMessage, show Nat.repr 5 = "5" from rfl, show Nat.repr 6 = "6" from rfl,
      show Nat.repr 7 = "7" from rfl]
  rw [hm]
  decide

/-- C8 (amended): message ids are unique within the conversation for every
sequence of submit/stream/error steps that starts from an empty conversation,
provided the clock readings advance: within each submit the three readings
are nondecreasing, and between consecutive submits the clock gains at least
two (the previous submit's last reading plus one is still below the next
submit's first reading, so the `+ 1` assistant id cannot collide with the
next user id). -/
theorem message_ids_unique (provider : ModelProvider) (apiKey : String)
    (events : List SubmitEvent) (st : ChatState)
    (hinit : st.messages = [])
    (hchron : ∀ e ∈ events, e.tUser ≤ e.tAsst ∧ e.tAsst ≤ e.tErr)
    (hchain : List.Chain' (fun a b => a.tErr + 1 < b.tUser) events) :
    (((runSubmits provider apiKey st events).messages.map Message.id)).Nodup := by
  apply runSubmits_ids_nodup provider apiKey events st 0
  · intro m hm
    rw [hinit] at hm
    simp at hm
  · rw [hinit]; simp
  · exact hchron
  · exact hchain
  · intro e _
    exact Nat.zero_le _

/-- Witness for C8 (amended) at a concrete input: two submits at clock
readings 5 and 8 satisfy the spacing hypotheses and produce pairwise distinct
message ids. -/
theorem message_ids_unique_witness :
    (∀ e ∈ ([{ input := "hi", tUser := 5, tAsst := 5, tErr := 5,
               outcome := StreamOutcome.failure [] (some ("boom")) },
             { input := "hi", tUser := 8, tAsst := 8, tErr := 8,
               outcome := StreamOutcome.success [("ok")] }] : List SubmitEvent),
      e.tUser ≤ e.tAsst ∧ e.tAsst ≤ e.tErr) ∧
    List.Chain' (fun a b => a.tErr + 1 < b.tUser)
      ([{ input := "hi", tUser := 5, tAsst := 5, tErr := 5,
          outcome := StreamOutcome.failure [] (some ("boom")) },
        { input := "hi", tUser := 8, tAsst := 8, tErr := 8,
          outcome := StreamOutcome.success [("ok")] }] : List SubmitEvent) ∧
    (((runSubmits ModelProvider.gemini ("g-key-123")
        { input := "", isLoading := false, isStreaming := false,
          streamingMessage := "", messages := [] }
        [{ input := "hi", tUser := 5, tAsst := 5, tErr := 5,
           outcome := StreamOutcome.failure [] (some ("boom")) },
         { input := "hi", tUser := 8, tAsst := 8, tErr := 8,
           outcome := StreamOutcome.success [("ok")] }]).messages.map Message.id)).Nodup := by
  refine ⟨by decide, by simp [List.chain'_cons, List.chain'_singleton], ?_⟩
  exact message_ids_unique ModelProvider.gemini ("g-key-123")
    [{ input := "hi", tUser := 5, tAsst := 5, tErr := 5,
       outcome := StreamOutcome.failure [] (some ("boom")) },
     { input := "hi", tUser := 8, tAsst := 8, tErr := 8,
       outcome := StreamOutcome.success [("ok")] }]
    { input := "", isLoading := false, isStreaming := false,
      streamingMessage := "", messages := [] }
    rfl (by decide) (by simp [List.chain'_cons, List.chain'_singleton])
